import Mathlib

/-!
# Shallow embedding of the mamarBank transaction views

This file embeds the ledger-mutation logic of `src/transactions/views.py`
(deposit, withdraw, loan request, loan payment, transfer, transaction
report) and proves or refutes the specification claims about it.

Modelling conventions:
* Account balances are integers (`Int`); the Django `DecimalField`
  amounts only ever participate in `+`, `-` and `<` here, so the claims
  are insensitive to the currency scale.
* Accounts are identified by `Nat` ids; `balances : Nat → Int` is the
  persisted balance column.  Usernames resolve to account ids through an
  association list (the `User.objects.get(username=...)` lookup).
* Transaction rows live in `records : List Transaction`, in creation
  order; `nextId` plays the role of the autoincrement primary key and
  `now` of `timezone.now()`.
* Each operation returns the successor database state together with an
  optional user-facing error (`messages.error` / 404 / limit page);
  an operation that merely redirects yields `none`.
-/

/-- Transaction-type codes.  Modelled from the spec: `constants.py` is not
under `src/`; the spec (§6) fixes the six enumerated types as stable
integer codes, and `views.py` uses the literal `3` interchangeably with
`LOAN` (lines 92 and 154), which pins `LOAN.code = 3`. -/
inductive TransactionType where
  | DEPOSIT
  | WITHDRAWAL
  | LOAN
  | LOAN_PAID
  | TRANSFER
  | RECEIVE_MONEY
deriving DecidableEq, Repr

/-- The stable integer code persisted in storage for each transaction type. -/
def TransactionType.code : TransactionType → Nat
  | .DEPOSIT => 1
  | .WITHDRAWAL => 2
  | .LOAN => 3
  | .LOAN_PAID => 4
  | .TRANSFER => 5
  | .RECEIVE_MONEY => 6

/-- A row of the `Transaction` model: owning account (weak id reference),
type, amount, timestamp, balance-after snapshot and the loan-approval
flag.  Field names follow the model referenced from `views.py`
(`balance_after_transaction`, `loan_approve`, `transaction_type`). -/
structure Transaction where
  id : Nat
  account : Nat
  transaction_type : TransactionType
  amount : Int
  timestamp : Nat
  balance_after_transaction : Int
  loan_approve : Bool
deriving DecidableEq, Repr

/-- Errors surfaced to the caller by the views (via `messages.error`,
`get_object_or_404`, or the loan-limit response page). -/
inductive BankError where
  | insufficientFunds
  | recipientNotFound
  | loanLimitExceeded
  | notFound
deriving DecidableEq, Repr

/-- The persisted database state the views read and mutate. -/
structure BankState where
  balances : Nat → Int
  users : List (String × Nat)
  records : List Transaction
  nextId : Nat
  now : Nat

/-- Point update of the balance column. -/
def updateBal (f : Nat → Int) (a : Nat) (v : Int) : Nat → Int :=
  fun x => if x = a then v else f x

/-- `User.objects.get(username=...)`, returning the matched user's
account id, or `none` for `User.DoesNotExist`. -/
def findUser (users : List (String × Nat)) (username : String) : Option Nat :=
  (users.find? (fun p => p.1 == username)).map (fun p => p.2)

/-- `get_object_or_404(Transaction, id=loan_id)`. -/
def findTransaction (s : BankState) (tid : Nat) : Option Transaction :=
  s.records.find? (fun r => r.id == tid)

/-- `DepositMoneyView.form_valid` (views.py lines 55-62): credit the
amount, persist, and let the `CreateView` machinery save the form's
transaction row.  Modelled from the spec: `forms.py`/`models.py` are not
under `src/`, so the saved row is taken from §4.2 —
`Transaction{type=DEPOSIT, amount, balance_after=new balance}` with the
loan flag at its false default. -/
def deposit (s : BankState) (user : Nat) (amount : Int) :
    BankState × Option BankError :=
  let newBal := s.balances user + amount
  ({ s with
      balances := updateBal s.balances user newBal
      records := s.records ++
        [⟨s.nextId, user, .DEPOSIT, amount, s.now, newBal, false⟩]
      nextId := s.nextId + 1 }, none)

/-- `WithdrawMoneyView.form_valid` (views.py lines 72-79): the source
debits unconditionally — there is no `balance < amount` check — then the
`CreateView` machinery saves the row (row fields modelled from the spec
as for `deposit`, §4.2, type `WITHDRAWAL`). -/
def withdraw (s : BankState) (user : Nat) (amount : Int) :
    BankState × Option BankError :=
  let newBal := s.balances user - amount
  ({ s with
      balances := updateBal s.balances user newBal
      records := s.records ++
        [⟨s.nextId, user, .WITHDRAWAL, amount, s.now, newBal, false⟩]
      nextId := s.nextId + 1 }, none)

/-- The count computed by `LoanRequestView.form_valid` (views.py lines
91-92): `Transaction.objects.filter(account=..., transaction_type=3,
loan_approve=True).count()`. -/
def loanCheckCount (s : BankState) (acct : Nat) : Nat :=
  (s.records.filter
    (fun r => r.account == acct && r.transaction_type.code == 3 &&
      r.loan_approve)).length

/-- `LoanRequestView.form_valid` (views.py lines 89-100): reject when the
count reaches 3, otherwise save the form's row.  Modelled from the spec:
the saved row (§4.3) is `Transaction{type=LOAN, loan_approve=false}`
(type from `get_initial`, flag at its false model default), with the
balance-after snapshot taken at creation per the glossary. -/
def requestLoan (s : BankState) (user : Nat) (amount : Int) :
    BankState × Option BankError :=
  if loanCheckCount s user ≥ 3 then
    (s, some .loanLimitExceeded)
  else
    ({ s with
        records := s.records ++
          [⟨s.nextId, user, .LOAN, amount, s.now, s.balances user, false⟩]
        nextId := s.nextId + 1 }, none)

/-- The row update `PayLoanView.get` saves on the loan record (views.py
lines 138, 140-142): restamp the balance-after snapshot, keep the
approval flag true, and set the type to LOAN_PAID. -/
def payRecordUpdate (loan_id : Nat) (newBal : Int) (r : Transaction) :
    Transaction :=
  if r.id == loan_id then
    { r with
        balance_after_transaction := newBal
        loan_approve := true
        transaction_type := .LOAN_PAID }
  else r

/-- `PayLoanView.get` (views.py lines 130-146).  The `requester`
argument is `request.user`'s account: the source only ever reads
`loan.account`, so `requester` is unused by the ledger logic (it appears
only in the rendered error message). -/
def payLoan (s : BankState) (requester : Nat) (loan_id : Nat) :
    BankState × Option BankError :=
  match findTransaction s loan_id with
  | none => (s, some .notFound)
  | some loan =>
    if loan.loan_approve then
      let user_account := loan.account
      if loan.amount < s.balances user_account then
        let newBal := s.balances user_account - loan.amount
        ({ s with
            balances := updateBal s.balances user_account newBal
            records := s.records.map (payRecordUpdate loan_id newBal) },
          none)
      else
        (s, some .insufficientFunds)
    else
      (s, none)

/-- `TransferMoneyView.post` (views.py lines 166-202) on a valid form.
The recipient row is loaded (line 173) before the sender is debited, so
its in-memory balance is the pre-transfer one; the sender row is saved
first (line 183), then the recipient row (line 186) — for a self-transfer
the second save overwrites the first, exactly as the two stale ORM
objects do. -/
def transfer (s : BankState) (sender : Nat) (recipient_username : String)
    (amount : Int) : BankState × Option BankError :=
  match findUser s.users recipient_username with
  | none => (s, some .recipientNotFound)
  | some recipient =>
    if s.balances sender < amount then
      (s, some .insufficientFunds)
    else
      let senderBal := s.balances sender - amount
      let recipientBal := s.balances recipient + amount
      ({ s with
          balances := updateBal (updateBal s.balances sender senderBal)
            recipient recipientBal
          records := s.records ++
            [⟨s.nextId, sender, .TRANSFER, amount, s.now, senderBal, false⟩,
             ⟨s.nextId + 1, recipient, .RECEIVE_MONEY, amount, s.now,
               recipientBal, false⟩]
          nextId := s.nextId + 2 }, none)

/-- Failure mode of `TransactionReportView.get_queryset`. -/
inductive ReportError where
  | attributeError
deriving DecidableEq, Repr

/-- Attribute lookup on the Python `datetime` produced by
`datetime.strptime(...)`: `date` yields the calendar date, and the name
`dend` (views.py line 114) is not an attribute of `datetime`, so looking
it up raises `AttributeError`. -/
def datetimeGetattr (d : Nat) (attr : String) : Option Nat :=
  if attr = "date" then some d else none

/-- `TransactionReportView.get_queryset` (views.py lines 107-123).
Dates are already parsed to `Nat` calendar days (`strptime` with
`%Y-%m-%d` is framework/stdlib plumbing); `none` stands for an absent or
empty request parameter.  When both dates are present the source
evaluates `datetime.strptime(end_date_str,'%Y-%m-%d').dend` — a lookup
of the nonexistent `dend` attribute — before any filtering; the two
statements after it (the range filter and the all-accounts
`aggregate(Sum('amount'))`) are kept here as the unreachable
continuation.  The result pairs the listed queryset with the displayed
balance. -/
def getQueryset (s : BankState) (user : Nat)
    (start_date end_date : Option Nat) :
    Except ReportError (List Transaction × Int) :=
  let queryset := s.records.filter (fun r => r.account == user)
  match start_date, end_date with
  | some sd, some edRaw =>
    match datetimeGetattr edRaw "dend" with
    | none => .error .attributeError
    | some ed =>
      let qs := queryset.filter
        (fun r => sd ≤ r.timestamp && r.timestamp ≤ ed)
      let balance := (s.records.filter
        (fun r => sd ≤ r.timestamp && r.timestamp ≤ ed)).foldl
          (fun acc r => acc + r.amount) 0
      .ok (qs, balance)
  | _, _ => .ok (queryset, s.balances user)

/-- One inbound request against the ledger-mutating views. -/
inductive Op where
  | deposit (user : Nat) (amount : Int)
  | withdraw (user : Nat) (amount : Int)
  | requestLoan (user : Nat) (amount : Int)
  | payLoan (requester : Nat) (loan_id : Nat)
  | transfer (sender : Nat) (recipient_username : String) (amount : Int)

/-- Dispatch one request to the corresponding view handler. -/
def applyOp (s : BankState) : Op → BankState × Option BankError
  | .deposit user amount => deposit s user amount
  | .withdraw user amount => withdraw s user amount
  | .requestLoan user amount => requestLoan s user amount
  | .payLoan requester loan_id => payLoan s requester loan_id
  | .transfer sender uname amount => transfer s sender uname amount

/-- The count the spec's amended reading of the limit check describes:
loan-type transactions of the account whose approval flag is true. -/
def approvedLoanCount (s : BankState) (acct : Nat) : Nat :=
  (s.records.filter
    (fun r => r.account == acct && r.transaction_type == .LOAN &&
      r.loan_approve)).length

/-- The count the original claim describes: loan-type transactions ever
created for the account, regardless of the approval flag. -/
def loanTypeCount (s : BankState) (acct : Nat) : Nat :=
  (s.records.filter
    (fun r => r.account == acct && r.transaction_type == .LOAN)).length

/-! ## Concrete states used as counterexamples and witnesses -/

/-- One account (id 0, balance 5) whose username "alice" resolves to
itself: the self-transfer scenario. -/
def sSelf : BankState :=
  { balances := fun n => if n = 0 then 5 else 0
    users := [("alice", 0)]
    records := []
    nextId := 1
    now := 0 }

/-- Two accounts: sender 0 with balance 10, recipient 1 ("bob") with
balance 0. -/
def sTwo : BankState :=
  { balances := fun n => if n = 0 then 10 else 0
    users := [("bob", 1)]
    records := []
    nextId := 1
    now := 2 }

/-- One account with balance 100 and an empty ledger. -/
def sPlain : BankState :=
  { balances := fun n => if n = 0 then 100 else 0
    users := []
    records := []
    nextId := 1
    now := 0 }

/-- Account 0 holds three unapproved loan-type transactions. -/
def sLoans : BankState :=
  { balances := fun _ => 0
    users := []
    records :=
      [⟨1, 0, .LOAN, 10, 0, 0, false⟩,
       ⟨2, 0, .LOAN, 20, 0, 0, false⟩,
       ⟨3, 0, .LOAN, 30, 0, 0, false⟩]
    nextId := 4
    now := 0 }

/-- Account 0 holds three approved loan-type transactions. -/
def sLoansApproved : BankState :=
  { balances := fun _ => 0
    users := []
    records :=
      [⟨1, 0, .LOAN, 10, 0, 0, true⟩,
       ⟨2, 0, .LOAN, 20, 0, 0, true⟩,
       ⟨3, 0, .LOAN, 30, 0, 0, true⟩]
    nextId := 4
    now := 0 }

/-- Account 0 (balance 100) with an approved loan record of amount 30
whose stored balance-after snapshot is 100. -/
def sPay : BankState :=
  { balances := fun n => if n = 0 then 100 else 0
    users := []
    records := [⟨1, 0, .LOAN, 30, 0, 100, true⟩]
    nextId := 2
    now := 5 }

/-- Account 0 (balance 50) with an approved loan record of amount 20
whose stored balance-after snapshot is 100. -/
def sPayC : BankState :=
  { balances := fun n => if n = 0 then 50 else 0
    users := []
    records := [⟨1, 0, .LOAN, 20, 0, 100, true⟩]
    nextId := 2
    now := 0 }

/-- Two transactions on different accounts with timestamps 3 and 4;
account 0's current balance is 77. -/
def sReport : BankState :=
  { balances := fun n => if n = 0 then 77 else 0
    users := []
    records :=
      [⟨1, 0, .DEPOSIT, 10, 3, 10, false⟩,
       ⟨2, 1, .DEPOSIT, 32, 4, 32, false⟩]
    nextId := 3
    now := 5 }

/-! ## Helper lemmas -/

/-- In a list whose elements have pairwise-distinct ids (a primary-key
column), two members with the same id are the same row. -/
theorem eq_of_mem_of_id_eq {l : List Transaction}
    (h : l.Pairwise (fun a b => a.id ≠ b.id)) {a b : Transaction}
    (ha : a ∈ l) (hb : b ∈ l) (hid : a.id = b.id) : a = b := by
  induction l with
  | nil => cases ha
  | cons x xs ih =>
    rcases List.pairwise_cons.mp h with ⟨hx, hxs⟩
    rcases List.mem_cons.mp ha with rfl | ha' <;>
      rcases List.mem_cons.mp hb with rfl | hb'
    · rfl
    · exact absurd hid (hx _ hb')
    · exact absurd hid.symm (hx _ ha')
    · exact ih hxs ha' hb'

/-- The view's inline loan count agrees with the approved-loan-type
count: the filter `transaction_type=3` is exactly the filter
`transaction_type = LOAN`. -/
theorem loanCheckCount_eq_approvedLoanCount (s : BankState) (acct : Nat) :
    loanCheckCount s acct = approvedLoanCount s acct := by
  unfold loanCheckCount approvedLoanCount
  congr 1
  refine List.filter_congr (fun r _ => ?_)
  cases h : r.transaction_type <;> rfl

/-! ## Claim C2 -/

/-- Claim C2 (code bug): the source's `WithdrawMoneyView.form_valid`
performs no balance-sufficiency check.  On an account with balance 100,
withdrawing 200 succeeds (no error), drives the balance to -100 and
creates a WITHDRAWAL record — where the claim requires an
InsufficientFundsError with no mutation and no record. -/
theorem withdraw_overdraft_behavior :
    sPlain.balances 0 < 200 ∧
    (withdraw sPlain 0 200).2 = none ∧
    (withdraw sPlain 0 200).1.balances 0 = -100 ∧
    (withdraw sPlain 0 200).1.records =
      [⟨1, 0, .WITHDRAWAL, 200, 0, -100, false⟩] := by
  decide

/-! ## Claim C4 -/

/-- Claim C4 (counterexample): the limit check does NOT count loan-type
transactions regardless of the approval flag.  With three unapproved
loan-type transactions on account 0, the check's count is 0 (not 3) and
a fourth loan request still creates a record. -/
theorem loanCheckCount_ignores_unapproved :
    loanTypeCount sLoans 0 = 3 ∧
    loanCheckCount sLoans 0 = 0 ∧
    loanCheckCount sLoans 0 ≠ loanTypeCount sLoans 0 ∧
    (requestLoan sLoans 0 40).2 = none ∧
    (requestLoan sLoans 0 40).1.records.length = 4 := by
  decide

/-- Claim C4 (amended): the loan-limit check counts, for the requesting
account, only loan-type transactions whose `loan_approve` flag is true;
correspondingly a loan request succeeds exactly when the account's
approved-loan-type count is below 3. -/
theorem loanCheckCount_counts_approved :
    (∀ (s : BankState) (acct : Nat),
      loanCheckCount s acct = approvedLoanCount s acct) ∧
    (∀ (s : BankState) (user : Nat) (amount : Int),
      ((requestLoan s user amount).2 = none ↔ approvedLoanCount s user < 3)) := by
  refine ⟨loanCheckCount_eq_approvedLoanCount, fun s user amount => ?_⟩
  unfold requestLoan
  rw [loanCheckCount_eq_approvedLoanCount]
  split <;> rename_i h
  · exact iff_of_false (by simp) (not_lt.mpr h)
  · exact iff_of_true rfl (lt_of_not_ge h)

/-! ## Claim C5 -/

/-- Claim C5: a loan request from an account with at least 3 approved
loan-type transactions is rejected with the loan-limit error and creates
no record; below 3, it creates exactly one new transaction of type LOAN
with `loan_approve = false` and succeeds. -/
theorem requestLoan_spec (s : BankState) (user : Nat) (amount : Int) :
    (3 ≤ approvedLoanCount s user →
      requestLoan s user amount = (s, some .loanLimitExceeded)) ∧
    (approvedLoanCount s user < 3 →
      requestLoan s user amount =
        ({ s with
            records := s.records ++
              [⟨s.nextId, user, .LOAN, amount, s.now, s.balances user, false⟩]
            nextId := s.nextId + 1 }, none)) := by
  unfold requestLoan
  rw [loanCheckCount_eq_approvedLoanCount]
  constructor
  · intro h
    simp only [ge_iff_le, h, if_true]
  · intro h
    simp only [ge_iff_le, not_le.mpr h, if_false]

/-- Claim C5 witness: on the three-approved-loans state the fourth
request is rejected with no record; on the three-unapproved-loans state
a request creates the LOAN record with the flag false. -/
theorem requestLoan_spec_witness :
    requestLoan sLoansApproved 0 40 = (sLoansApproved, some .loanLimitExceeded) ∧
    requestLoan sLoans 0 40 =
      ({ sLoans with
          records := sLoans.records ++
            [⟨sLoans.nextId, 0, .LOAN, 40, sLoans.now, sLoans.balances 0, false⟩]
          nextId := sLoans.nextId + 1 }, none) :=
  ⟨(requestLoan_spec sLoansApproved 0 40).1 (by decide),
   (requestLoan_spec sLoans 0 40).2 (by decide)⟩

/-! ## Claim C9 -/

/-- Claim C9: whenever both a start and an end date are supplied, the
report's queryset computation fails with an attribute error — the lookup
of the nonexistent `dend` attribute on the parsed end date — before any
range filtering or balance aggregation, so a ranged report never
returns a result. -/
theorem report_ranged_raises :
    (∀ (s : BankState) (user sd ed : Nat),
      getQueryset s user (some sd) (some ed) = .error .attributeError) ∧
    (∀ d : Nat, datetimeGetattr d "dend" = none) :=
  ⟨fun _ _ _ _ => rfl, fun _ => rfl⟩

/-! ## Claim C10 -/

/-- Claim C10: `PayLoanView` reads and debits the account referenced by
the loan record itself, never the requester's: its result is identical
for any two authenticated users running it on the same loan id and
ledger state, and no account other than the loan record's own account
ever changes balance. -/
theorem payLoan_requester_irrelevant :
    (∀ (s : BankState) (u₁ u₂ lid : Nat),
      payLoan s u₁ lid = payLoan s u₂ lid) ∧
    (∀ (s : BankState) (u lid : Nat) (L : Transaction),
      findTransaction s lid = some L → ∀ a, a ≠ L.account →
        (payLoan s u lid).1.balances a = s.balances a) := by
  constructor
  · intro s u₁ u₂ lid
    rfl
  · intro s u lid L hfind a ha
    simp only [payLoan, hfind]
    split
    · split
      · simp only [updateBal, if_neg ha]
      · rfl
    · rfl

/-- Claim C10 witness: on the concrete approved-loan state, two
different requesters produce the same outcome, and account 3 (not the
loan's account) keeps its balance. -/
theorem payLoan_requester_irrelevant_witness :
    payLoan sPay 7 1 = payLoan sPay 8 1 ∧
    (payLoan sPay 7 1).1.balances 3 = sPay.balances 3 :=
  ⟨payLoan_requester_irrelevant.1 sPay 7 8 1,
   payLoan_requester_irrelevant.2 sPay 7 1 ⟨1, 0, .LOAN, 30, 0, 100, true⟩
     rfl 3 (by decide)⟩

/-! ## Claim C1 -/

/-- Claim C1 (counterexample): when the recipient username resolves to
the sender's own account, the stale-object write order makes the second
save win — the transfer of 5 from the account with balance 5 succeeds
and leaves balance 10, not the balance decreased by the amount. -/
theorem transfer_self_counterexample :
    (5 : Int) ≤ sSelf.balances 0 ∧
    findUser sSelf.users "alice" = some 0 ∧
    (transfer sSelf 0 "alice" 5).2 = none ∧
    (transfer sSelf 0 "alice" 5).1.balances 0 = 10 ∧
    (transfer sSelf 0 "alice" 5).1.balances 0 ≠ sSelf.balances 0 - 5 := by
  decide

/-- Claim C1 (amended): when the recipient username resolves to an
account distinct from the sender's and the amount is at most the
sender's balance, the transfer succeeds, decreases the sender's balance
by the amount, increases the recipient's by the amount, and appends
exactly two records — TRANSFER on the sender and RECEIVE_MONEY on the
recipient, both with that amount and with balance-after snapshots equal
to the two post-mutation balances. -/
theorem transfer_ok (s : BankState) (sender : Nat) (uname : String)
    (amount : Int) (recipient : Nat)
    (hfind : findUser s.users uname = some recipient)
    (hdistinct : recipient ≠ sender)
    (hfunds : amount ≤ s.balances sender) :
    (transfer s sender uname amount).2 = none ∧
    (transfer s sender uname amount).1.balances sender =
      s.balances sender - amount ∧
    (transfer s sender uname amount).1.balances recipient =
      s.balances recipient + amount ∧
    (transfer s sender uname amount).1.records = s.records ++
      [⟨s.nextId, sender, .TRANSFER, amount, s.now,
         (transfer s sender uname amount).1.balances sender, false⟩,
       ⟨s.nextId + 1, recipient, .RECEIVE_MONEY, amount, s.now,
         (transfer s sender uname amount).1.balances recipient, false⟩] := by
  have hnl : ¬ s.balances sender < amount := not_lt.mpr hfunds
  simp only [transfer, hfind, if_neg hnl, updateBal, if_pos rfl,
    if_neg hdistinct.symm, if_neg hdistinct]
  refine ⟨?_, ?_, ?_, ?_⟩ <;> trivial

/-- Claim C1 witness: transferring 3 from account 0 (balance 10) to
"bob" (account 1, balance 0) succeeds, leaving balances 7 and 3 and the
two expected records. -/
theorem transfer_ok_witness :
    (transfer sTwo 0 "bob" 3).2 = none ∧
    (transfer sTwo 0 "bob" 3).1.balances 0 = sTwo.balances 0 - 3 ∧
    (transfer sTwo 0 "bob" 3).1.balances 1 = sTwo.balances 1 + 3 ∧
    (transfer sTwo 0 "bob" 3).1.records = sTwo.records ++
      [⟨sTwo.nextId, 0, .TRANSFER, 3, sTwo.now,
         (transfer sTwo 0 "bob" 3).1.balances 0, false⟩,
       ⟨sTwo.nextId + 1, 1, .RECEIVE_MONEY, 3, sTwo.now,
         (transfer sTwo 0 "bob" 3).1.balances 1, false⟩] :=
  transfer_ok sTwo 0 "bob" 3 1 rfl (by decide) (by decide)

/-! ## Claim C3 -/

/-- Claim C3: for a loan record found by id with `loan_approve` true —
if its amount is below the account's balance, PayLoan debits the loan's
account by the amount, restamps the record's balance-after snapshot with
the new balance, sets its type to LOAN_PAID with the flag still true,
and persists both; otherwise (amount at least the balance) it reports
the insufficient-funds error and changes nothing. -/
theorem payLoan_spec (s : BankState) (req lid : Nat) (L : Transaction)
    (hfind : findTransaction s lid = some L)
    (happ : L.loan_approve = true) :
    (L.amount < s.balances L.account →
      payLoan s req lid =
        ({ s with
            balances := updateBal s.balances L.account
              (s.balances L.account - L.amount)
            records := s.records.map
              (payRecordUpdate lid (s.balances L.account - L.amount)) },
          none)) ∧
    (s.balances L.account ≤ L.amount →
      payLoan s req lid = (s, some .insufficientFunds)) := by
  constructor
  · intro hlt
    simp only [payLoan, hfind, happ, if_true, if_pos hlt]
  · intro hge
    simp only [payLoan, hfind, happ, if_true, if_neg (not_lt.mpr hge)]

/-- Claim C3 witness: on the approved 30-unit loan against balance 100,
PayLoan leaves balance 70 and the record restamped, paid and still
approved; on the 20-unit loan against balance 50 with snapshot 100 the
debit happens likewise — and conversely `sLoansApproved` (balance 0)
yields the insufficient-funds error with no change. -/
theorem payLoan_spec_witness :
    payLoan sPay 7 1 =
      ({ sPay with
          balances := updateBal sPay.balances 0 (sPay.balances 0 - 30)
          records := sPay.records.map
            (payRecordUpdate 1 (sPay.balances 0 - 30)) }, none) ∧
    payLoan sLoansApproved 9 1 = (sLoansApproved, some .insufficientFunds) :=
  ⟨(payLoan_spec sPay 7 1 ⟨1, 0, .LOAN, 30, 0, 100, true⟩ rfl rfl).1
     (by decide),
   (payLoan_spec sLoansApproved 9 1 ⟨1, 0, .LOAN, 10, 0, 0, true⟩ rfl rfl).2
     (by decide)⟩

/-! ## Claim C6 -/

/-- Claim C6 (counterexample): with both dates supplied, no balance is
displayed at all — the queryset computation fails with the attribute
error — even though the range holds transactions (of two different
accounts) whose amounts sum to 42, which the claim says would be the
displayed balance. -/
theorem report_ranged_balance_counterexample :
    getQueryset sReport 0 (some 0) (some 9) = .error .attributeError ∧
    (sReport.records.filter
      (fun r => 0 ≤ r.timestamp && r.timestamp ≤ 9)).foldl
        (fun acc r => acc + r.amount) 0 = 42 :=
  ⟨rfl, by decide⟩

/-- Claim C6 (amended): when both a start and an end date are supplied
the report computation fails with an attribute error before any
filtering or aggregation (the unreached aggregation is the unscoped
all-accounts sum); when no range is supplied, the displayed balance is
the viewed account's current balance and the queryset is the account's
transactions. -/
theorem report_balance (s : BankState) (user : Nat) :
    (∀ sd ed, getQueryset s user (some sd) (some ed) =
      .error .attributeError) ∧
    getQueryset s user none none =
      .ok (s.records.filter (fun r => r.account == user), s.balances user) :=
  ⟨fun _ _ => rfl, rfl⟩

/-! ## Claim C7 -/

/-- Claim C7: a transfer whose recipient username resolves to no user
fails with the recipient-not-found error, and one whose amount exceeds
the sender's balance fails with the insufficient-funds error; in both
cases the state — every balance and the record list — is unchanged. -/
theorem transfer_failure_no_mutation (s : BankState) (sender : Nat)
    (uname : String) (amount : Int) :
    (findUser s.users uname = none →
      transfer s sender uname amount = (s, some .recipientNotFound)) ∧
    (∀ recipient, findUser s.users uname = some recipient →
      s.balances sender < amount →
      transfer s sender uname amount = (s, some .insufficientFunds)) := by
  constructor
  · intro h
    simp only [transfer, h]
  · intro recipient h hlt
    simp only [transfer, h, if_pos hlt]

/-- Claim C7 witness: transferring to the unknown username "ghost"
leaves the two-account state intact with the recipient-not-found error,
and transferring 11 from account 0 (balance 10) to "bob" leaves it
intact with the insufficient-funds error. -/
theorem transfer_failure_no_mutation_witness :
    transfer sTwo 0 "ghost" 3 = (sTwo, some .recipientNotFound) ∧
    transfer sTwo 0 "bob" 11 = (sTwo, some .insufficientFunds) :=
  ⟨(transfer_failure_no_mutation sTwo 0 "ghost" 3).1 rfl,
   (transfer_failure_no_mutation sTwo 0 "bob" 11).2 1 rfl (by decide)⟩

/-! ## Claim C8 -/

/-- Claim C8 (counterexample): paying the approved 20-unit loan against
balance 50 rewrites the record's balance-after snapshot from 100 to 30 —
a field the claim says no operation may mutate (it allows only the
approval flag and the LOAN-to-LOAN_PAID type change). -/
theorem payLoan_mutates_snapshot :
    sPayC.records = [⟨1, 0, .LOAN, 20, 0, 100, true⟩] ∧
    (applyOp sPayC (.payLoan 9 1)).1.records =
      [⟨1, 0, .LOAN_PAID, 20, 0, 30, true⟩] ∧
    (100 : Int) ≠ 30 := by
  decide

/-- The record shape each existing row keeps across any one operation:
same primary key, account, amount and timestamp; the type unchanged or
moved from LOAN to LOAN_PAID; the approval flag never cleared.  (The
balance-after snapshot and the flag itself are the fields PayLoan may
rewrite.) -/
def preservesRow (post : List Transaction) (r : Transaction) : Prop :=
  ∃ r', r' ∈ post ∧
    r'.id = r.id ∧ r'.account = r.account ∧ r'.amount = r.amount ∧
    r'.timestamp = r.timestamp ∧
    (r'.transaction_type = r.transaction_type ∨
      (r.transaction_type = .LOAN ∧ r'.transaction_type = .LOAN_PAID)) ∧
    (r.loan_approve = true → r'.loan_approve = true)

/-- Claim C8 (amended): in a state with pairwise-distinct record ids
(the primary key) where the approval flag is only set on loan-type
records, every operation leaves each existing record's id, account,
amount and timestamp intact and changes its type at most from LOAN to
LOAN_PAID, never clearing the approval flag; besides the flag, the type,
and the balance-after snapshot that PayLoan restamps, no field of an
existing record is mutated. -/
theorem records_immutable (s : BankState) (op : Op)
    (hids : s.records.Pairwise (fun a b => a.id ≠ b.id))
    (happrove : ∀ r ∈ s.records, r.loan_approve = true →
      r.transaction_type = .LOAN ∨ r.transaction_type = .LOAN_PAID) :
    ∀ r ∈ s.records, preservesRow (applyOp s op).1.records r := by
  intro r hr
  cases op with
  | deposit user amount =>
      exact ⟨r, List.mem_append_left _ hr, rfl, rfl, rfl, rfl,
        Or.inl rfl, id⟩
  | withdraw user amount =>
      exact ⟨r, List.mem_append_left _ hr, rfl, rfl, rfl, rfl,
        Or.inl rfl, id⟩
  | requestLoan user amount =>
      refine ⟨r, ?_, rfl, rfl, rfl, rfl, Or.inl rfl, id⟩
      simp only [applyOp, requestLoan]
      split
      · exact hr
      · exact List.mem_append_left _ hr
  | transfer sender uname amount =>
      refine ⟨r, ?_, rfl, rfl, rfl, rfl, Or.inl rfl, id⟩
      cases hfu : findUser s.users uname with
      | none => simpa [applyOp, transfer, hfu] using hr
      | some recipient =>
          simp only [applyOp, transfer, hfu]
          split
          · exact hr
          · exact List.mem_append_left _ hr
  | payLoan requester lid =>
      cases hfind : findTransaction s lid with
      | none =>
          exact ⟨r, by simpa [applyOp, payLoan, hfind] using hr, rfl, rfl,
            rfl, rfl, Or.inl rfl, id⟩
      | some loan =>
          by_cases happl : loan.loan_approve = true
          · by_cases hlt : loan.amount < s.balances loan.account
            · have hpost : (applyOp s (.payLoan requester lid)).1.records =
                  s.records.map
                    (payRecordUpdate lid (s.balances loan.account - loan.amount)) := by
                simp [applyOp, payLoan, hfind, happl, hlt]
              rw [hpost]
              refine ⟨payRecordUpdate lid (s.balances loan.account - loan.amount) r,
                List.mem_map_of_mem _ hr, ?_⟩
              by_cases hrid : (r.id == lid) = true
              · have hloanmem : loan ∈ s.records :=
                  List.mem_of_find?_eq_some hfind
                have hloanid : loan.id = lid := by
                  simpa using List.find?_some hfind
                have hrEq : r = loan :=
                  eq_of_mem_of_id_eq hids hr hloanmem
                    ((beq_iff_eq.mp hrid).trans hloanid.symm)
                have hrapp : r.loan_approve = true := hrEq ▸ happl
                have htype := happrove r hr hrapp
                have hupd : payRecordUpdate lid
                    (s.balances loan.account - loan.amount) r =
                    { r with
                        balance_after_transaction :=
                          s.balances loan.account - loan.amount
                        loan_approve := true
                        transaction_type := .LOAN_PAID } := by
                  unfold payRecordUpdate
                  rw [if_pos hrid]
                rw [hupd]
                refine ⟨rfl, rfl, rfl, rfl, ?_, fun _ => rfl⟩
                rcases htype with h | h
                · exact Or.inr ⟨h, rfl⟩
                · exact Or.inl h.symm
              · have hupd : payRecordUpdate lid
                    (s.balances loan.account - loan.amount) r = r := by
                  unfold payRecordUpdate
                  rw [if_neg hrid]
                rw [hupd]
                exact ⟨rfl, rfl, rfl, rfl, Or.inl rfl, id⟩
            · exact ⟨r,
                by simpa [applyOp, payLoan, hfind, happl, hlt] using hr,
                rfl, rfl, rfl, rfl, Or.inl rfl, id⟩
          · exact ⟨r,
              by simpa [applyOp, payLoan, hfind, happl] using hr,
              rfl, rfl, rfl, rfl, Or.inl rfl, id⟩

/-- Claim C8 witness: paying the approved loan in the one-record state
preserves the record's id, account, amount and timestamp, moves its type
LOAN-to-LOAN_PAID, and keeps the flag set. -/
theorem records_immutable_witness :
    preservesRow (applyOp sPay (.payLoan 7 1)).1.records
      ⟨1, 0, .LOAN, 30, 0, 100, true⟩ :=
  records_immutable sPay (.payLoan 7 1) (by decide) (by decide)
    ⟨1, 0, .LOAN, 30, 0, 100, true⟩ (by decide)
